import Mathlib

/-!
Shallow embedding of the realtime connection manager of the trade-machine
repository (frontend WebSocket service): a WebSocketService class holding three
socket handles (wallet, bots, notifications), a shared reconnect-attempt
counter with capped exponential backoff, a message dispatcher switching on the
envelope discriminant, and a module-level singleton facade.

The embedding is an explicit state machine: each method becomes a pure function
from the service state (and, where the source awaits external transport events,
an explicit record of those outcomes) to a new state plus a list of observable
effects (console logs, warnings, toasts, callback invocations, timer
scheduling, payload transmission).
-/

namespace TradeMachine

/-- The three socket topics owned by the service. -/
inductive Topic
  | wallet
  | bots
  | notifications
  deriving DecidableEq, Repr

/-- WebSocket readyState values as used by the source (only OPEN is tested). -/
inductive ReadyState
  | CONNECTING
  | OPEN
  | CLOSING
  | CLOSED
  deriving DecidableEq, Repr

/-- The callback slots of the WebSocketCallbacks interface. -/
inductive CallbackKind
  | onBalanceUpdate
  | onTransactionNotification
  | onBotStatusUpdate
  | onSystemNotification
  | onError
  | onConnectionEstablished
  | onDisconnect
  deriving DecidableEq, Repr

/-- Which optional callback slots are populated in the registered
WebSocketCallbacks object (the source invokes them by optional chaining). -/
structure WebSocketCallbacks where
  onBalanceUpdate : Bool
  onTransactionNotification : Bool
  onBotStatusUpdate : Bool
  onSystemNotification : Bool
  onError : Bool
  onConnectionEstablished : Bool
  onDisconnect : Bool
  deriving DecidableEq, Repr

/-- The embedded transaction of a transaction_notification payload: the fields
the dispatcher reads. Optional fields model absent JS properties; the amount is
the wire magnitude as a natural number. -/
structure Transaction where
  transaction_type : Option String
  amount : Option Nat
  deriving DecidableEq, Repr

/-- The fields of the envelope data payload that the dispatcher inspects. -/
structure MessageData where
  transaction : Option Transaction
  message : Option String
  level : Option String
  error : Option String
  deriving DecidableEq, Repr

/-- The wire envelope (WebSocketMessage in the source). -/
structure WSMessage where
  type : String
  user_id : Option String
  data : MessageData
  timestamp : String
  deriving DecidableEq, Repr

/-- Observable effects emitted by the service methods. -/
inductive Effect
  | logged (msg : String)
  | warned (msg : String)
  | toastSuccess (msg : String)
  | toastError (msg : String)
  | toastWithIcon (msg : String)
  | callbackInvoked (k : CallbackKind)
  | scheduledTimer (delay : Nat)
  | sentPayload (t : Topic) (payload : String)
  | closedSocket (t : Topic)
  deriving DecidableEq, Repr

/-- The mutable fields of a WebSocketService instance. pendingTimers records
the delays of reconnect timers that have been scheduled by setTimeout and have
not yet fired (the source never cancels them). -/
structure WSState where
  walletSocket : Option ReadyState
  botsSocket : Option ReadyState
  notificationsSocket : Option ReadyState
  reconnectAttempts : Nat
  reconnectDelay : Nat
  isConnecting : Bool
  pendingTimers : List Nat
  deriving DecidableEq, Repr

/-- The maxReconnectAttempts field of the source, never mutated. -/
def maxReconnectAttempts : Nat := 5

/-- The state of a freshly constructed WebSocketService: no sockets,
counter 0, base delay 1000 ms, not connecting, no pending timers. -/
def newWSState : WSState :=
  { walletSocket := none, botsSocket := none, notificationsSocket := none,
    reconnectAttempts := 0, reconnectDelay := 1000, isConnecting := false,
    pendingTimers := [] }

/-- scheduleReconnect: if the attempt counter is below the cap, increment it,
compute delay = reconnectDelay * 2 ^ (attempts - 1) for the incremented
counter, and schedule a timer; otherwise log and show the terminal
connection-lost toast. Mirrors WebSocketService.scheduleReconnect. -/
def scheduleReconnect (s : WSState) : WSState × List Effect :=
  if s.reconnectAttempts < maxReconnectAttempts then
    let attempts := s.reconnectAttempts + 1
    let delay := s.reconnectDelay * 2 ^ (attempts - 1)
    ({ s with reconnectAttempts := attempts,
              pendingTimers := s.pendingTimers ++ [delay] },
     [Effect.logged "Scheduling WebSocket reconnect",
      Effect.scheduledTimer delay])
  else
    (s, [Effect.logged "Max WebSocket reconnection attempts reached",
         Effect.toastError "Connection lost. Please refresh the page."])

/-- Resolution of the promise returned by connect(). The source catches every
error of the sequential opens, so the rejected constructor is never produced
by the embedding; it exists to state the spec claim about rejection. -/
inductive ConnectResult
  | resolved
  | rejected
  deriving DecidableEq, Repr

/-- The outcomes of the three awaited channel opens: whether the transport
reported onopen (true) or onerror before readiness (false) for each topic.
These are the external events connect() awaits, given as input. -/
structure OpenOutcomes where
  wallet : Bool
  bots : Bool
  notifications : Bool
  deriving DecidableEq, Repr

/-- connect: guarded by isConnecting; opens wallet, bots, notifications
sequentially; on full success resets the attempt counter to 0; on the first
failure catches the rejection, clears isConnecting and calls scheduleReconnect.
The returned promise resolves in every path (the catch swallows the error).
Mirrors WebSocketService.connect with connectWallet/connectBots/
connectNotifications inlined as their open outcomes. -/
def connect (oc : OpenOutcomes) (s : WSState) : WSState × ConnectResult × List Effect :=
  if s.isConnecting then
    (s, ConnectResult.resolved, [])
  else
    let s1 := { s with isConnecting := true,
                       walletSocket := some ReadyState.CONNECTING }
    if oc.wallet then
      let s2 := { s1 with walletSocket := some ReadyState.OPEN,
                          botsSocket := some ReadyState.CONNECTING }
      if oc.bots then
        let s3 := { s2 with botsSocket := some ReadyState.OPEN,
                            notificationsSocket := some ReadyState.CONNECTING }
        if oc.notifications then
          ({ s3 with notificationsSocket := some ReadyState.OPEN,
                     reconnectAttempts := 0, isConnecting := false },
           ConnectResult.resolved,
           [Effect.logged "Wallet WebSocket connected",
            Effect.logged "Bots WebSocket connected",
            Effect.logged "Notifications WebSocket connected",
            Effect.logged "All WebSocket connections established"])
        else
          let s4 := { s3 with isConnecting := false }
          let r := scheduleReconnect s4
          (r.1, ConnectResult.resolved,
           [Effect.logged "Wallet WebSocket connected",
            Effect.logged "Bots WebSocket connected",
            Effect.logged "Error connecting WebSockets"] ++ r.2)
      else
        let s4 := { s2 with isConnecting := false }
        let r := scheduleReconnect s4
        (r.1, ConnectResult.resolved,
         [Effect.logged "Wallet WebSocket connected",
          Effect.logged "Error connecting WebSockets"] ++ r.2)
    else
      let s4 := { s1 with isConnecting := false }
      let r := scheduleReconnect s4
      (r.1, ConnectResult.resolved,
       [Effect.logged "Error connecting WebSockets"] ++ r.2)

/-- Substring test over character lists: does the pattern occur at the head. -/
def startsWithList : List Char → List Char → Bool
  | [], _ => true
  | _ :: _, [] => false
  | p :: ps, c :: cs => p == c && startsWithList ps cs

/-- Substring test over character lists: does the pattern occur anywhere. -/
def hasSubList : List Char → List Char → Bool
  | pat, [] => startsWithList pat []
  | pat, c :: cs => startsWithList pat (c :: cs) || hasSubList pat cs

/-- JS String.prototype.includes: substring containment. -/
def containsSubstr (s pat : String) : Bool :=
  hasSubList pat.toList s.toList

/-- Insert a comma after every third character of a reversed digit list. -/
def sepThousandsRev : List Char → Nat → List Char
  | [], _ => []
  | c :: cs, 0 => ',' :: c :: sepThousandsRev cs 2
  | c :: cs, Nat.succ k => c :: sepThousandsRev cs k

/-- Number.prototype.toLocaleString for a natural number in the en-US locale:
decimal digits grouped in threes by commas from the right. -/
def toLocaleString (n : Nat) : String :=
  String.mk (sepThousandsRev (Nat.toDigits 10 n).reverse 3).reverse

/-- The polarity test of the transaction toast:
tx.transaction_type?.includes of the receive marker, with a missing
transaction_type optional-chained to a falsy value. -/
def isReceiveTx (tx : Transaction) : Bool :=
  match tx.transaction_type with
  | some t => containsSubstr t "receive"
  | none => false

/-- The displayed amount of the transaction toast:
tx.amount?.toLocaleString() with a missing amount defaulted to "0". -/
def displayAmount (tx : Transaction) : String :=
  match tx.amount with
  | some a => toLocaleString a
  | none => "0"

/-- The switch of handleMessage on the envelope discriminant. Each case
invokes the matching registered callback if present; the
transaction_notification, system_notification and error_notification cases
additionally raise toasts; pong does nothing; every other discriminant is
logged and dropped. JS falsy tests on strings treat the empty string
as absent. -/
def dispatchMessage (cbs : WebSocketCallbacks) (msg : WSMessage) : List Effect :=
  if msg.type = "connection_established" then
    if cbs.onConnectionEstablished then
      [Effect.callbackInvoked CallbackKind.onConnectionEstablished]
    else []
  else if msg.type = "balance_update" then
    if cbs.onBalanceUpdate then
      [Effect.callbackInvoked CallbackKind.onBalanceUpdate]
    else []
  else if msg.type = "transaction_notification" then
    (if cbs.onTransactionNotification then
      [Effect.callbackInvoked CallbackKind.onTransactionNotification]
     else []) ++
    (match msg.data.transaction with
     | some tx =>
         [Effect.toastSuccess
           ((if isReceiveTx tx then "Received" else "Sent") ++ " KES "
             ++ displayAmount tx)]
     | none => [])
  else if msg.type = "bot_status_update" then
    if cbs.onBotStatusUpdate then
      [Effect.callbackInvoked CallbackKind.onBotStatusUpdate]
    else []
  else if msg.type = "system_notification" then
    (if cbs.onSystemNotification then
      [Effect.callbackInvoked CallbackKind.onSystemNotification]
     else []) ++
    (match msg.data.message with
     | some m =>
         if m = "" then []
         else
           let level := match msg.data.level with
             | some l => if l = "" then "info" else l
             | none => "info"
           if level = "error" then [Effect.toastError m]
           else if level = "warning" then [Effect.toastWithIcon m]
           else [Effect.toastSuccess m]
     | none => [])
  else if msg.type = "error_notification" then
    (if cbs.onError then [Effect.callbackInvoked CallbackKind.onError]
     else []) ++
    (match msg.data.error with
     | some e => if e = "" then [] else [Effect.toastError e]
     | none => [])
  else if msg.type = "pong" then
    []
  else
    [Effect.logged "Unknown WebSocket message type"]

/-- handleMessage on a successfully parsed envelope: log the message, then
dispatch on its discriminant. The surrounding try/catch of the source only
concerns JSON.parse failures, which precede this function. -/
def handleMessage (cbs : WebSocketCallbacks) (msg : WSMessage) : List Effect :=
  Effect.logged "WebSocket message" :: dispatchMessage cbs msg

/-- Read the socket handle owning a topic. -/
def getSocket (s : WSState) (t : Topic) : Option ReadyState :=
  match t with
  | Topic.wallet => s.walletSocket
  | Topic.bots => s.botsSocket
  | Topic.notifications => s.notificationsSocket

/-- Replace the socket handle owning a topic. -/
def setSocket (s : WSState) (t : Topic) (v : Option ReadyState) : WSState :=
  match t with
  | Topic.wallet => { s with walletSocket := v }
  | Topic.bots => { s with botsSocket := v }
  | Topic.notifications => { s with notificationsSocket := v }

/-- sendMessage: pick the socket for the topic; transmit the serialized
payload only when the handle exists and its readyState is OPEN, otherwise warn
and drop. The state is never modified and nothing is queued. Mirrors
WebSocketService.sendMessage. -/
def sendMessage (s : WSState) (payload : String) (socketType : Topic) :
    WSState × List Effect :=
  match getSocket s socketType with
  | some ReadyState.OPEN => (s, [Effect.sentPayload socketType payload])
  | _ => (s, [Effect.warned "WebSocket is not connected"])

/-- The onclose handler of a topic socket: the transport marks the socket
CLOSED; only the wallet handler invokes the registered onDisconnect callback;
every handler then calls scheduleReconnect. Mirrors the three onclose
closures of connectWallet, connectBots and connectNotifications. -/
def handleClose (cbs : WebSocketCallbacks) (t : Topic) (s : WSState) :
    WSState × List Effect :=
  let s1 := setSocket s t (some ReadyState.CLOSED)
  let cbEff : List Effect :=
    match t with
    | Topic.wallet =>
        if cbs.onDisconnect then
          [Effect.callbackInvoked CallbackKind.onDisconnect]
        else []
    | _ => []
  let r := scheduleReconnect s1
  (r.1, Effect.logged "WebSocket disconnected" :: cbEff ++ r.2)

/-- disconnect: close each non-null socket and null its handle; pending
reconnect timers are not touched. Mirrors WebSocketService.disconnect. -/
def disconnect (s : WSState) : WSState × List Effect :=
  let e1 : List Effect :=
    match s.walletSocket with
    | some _ => [Effect.closedSocket Topic.wallet]
    | none => []
  let e2 : List Effect :=
    match s.botsSocket with
    | some _ => [Effect.closedSocket Topic.bots]
    | none => []
  let e3 : List Effect :=
    match s.notificationsSocket with
    | some _ => [Effect.closedSocket Topic.notifications]
    | none => []
  ({ s with walletSocket := none, botsSocket := none,
            notificationsSocket := none },
   e1 ++ e2 ++ e3 ++ [Effect.logged "All WebSocket connections closed"])

/-- A pending reconnect timer fires: remove it from the pending list and run
connect against the state current at firing time (the setTimeout callback of
scheduleReconnect). -/
def fireNextTimer (oc : OpenOutcomes) (s : WSState) :
    Option (WSState × ConnectResult × List Effect) :=
  match s.pendingTimers with
  | [] => none
  | _ :: rest => some (connect oc { s with pendingTimers := rest })

/-- One constructed WebSocketService instance with its constructor arguments,
registered callbacks and mutable state. -/
structure ServiceInstance where
  baseUrl : String
  authToken : String
  userId : String
  callbacks : WebSocketCallbacks
  st : WSState
  deriving DecidableEq, Repr

/-- The module-level singleton holding the one live service instance. -/
structure GlobalState where
  websocketService : Option ServiceInstance
  deriving DecidableEq, Repr

/-- initializeWebSocket: if a previous instance exists, call its disconnect;
then construct a fresh instance, register the callbacks and install it as the
singleton. Returns the new global state, the final state of the displaced
instance (if any) and the effects of tearing it down. Mirrors the
module-level initializeWebSocket. -/
def initializeWebSocket (g : GlobalState) (baseUrl authToken userId : String)
    (cbs : WebSocketCallbacks) : GlobalState × Option WSState × List Effect :=
  match g.websocketService with
  | some inst =>
      let r := disconnect inst.st
      ({ websocketService := some { baseUrl := baseUrl, authToken := authToken,
                                    userId := userId, callbacks := cbs,
                                    st := newWSState } },
       some r.1, r.2)
  | none =>
      ({ websocketService := some { baseUrl := baseUrl, authToken := authToken,
                                    userId := userId, callbacks := cbs,
                                    st := newWSState } },
       none, [])

/-- Model of interim mutation of the live instance between facade calls
(connects, closes and sends change only the st field). -/
def setInstanceState (g : GlobalState) (st : WSState) : GlobalState :=
  match g.websocketService with
  | some inst => { websocketService := some { inst with st := st } }
  | none => g

/-- Iterate failure events (calls to scheduleReconnect, as performed by every
onclose handler and every failed connect) from a state, collecting effects. -/
def runFailureEvents : Nat → WSState → WSState × List Effect
  | 0, s => (s, [])
  | Nat.succ k, s =>
      let r1 := scheduleReconnect s
      let r2 := runFailureEvents k r1.1
      (r2.1, r1.2 ++ r2.2)

/-- The terminal connection-lost toast shown beyond the retry cap. -/
def terminalToast : Effect :=
  Effect.toastError "Connection lost. Please refresh the page."

/-- Number of terminal connection-lost toasts in an effect list. -/
def countTerminal : List Effect → Nat
  | [] => 0
  | e :: es => (if e = terminalToast then 1 else 0) + countTerminal es

/-- The toastSuccess texts of an effect list, in order. -/
def successToasts : List Effect → List String
  | [] => []
  | Effect.toastSuccess m :: es => m :: successToasts es
  | _ :: es => successToasts es

/-- The inbound discriminants with a dedicated switch case in handleMessage. -/
def recognizedTypes : List String :=
  ["connection_established", "balance_update", "transaction_notification",
   "bot_status_update", "system_notification", "error_notification", "pong"]

end TradeMachine

namespace TradeMachine

/-- Helper: every call to scheduleReconnect either appends exactly one pending
timer or emits the terminal connection-lost toast. -/
theorem aux_scheduleReconnect_cycle (s : WSState) :
    (scheduleReconnect s).1.pendingTimers.length = s.pendingTimers.length + 1 ∨
    terminalToast ∈ (scheduleReconnect s).2 := by
  by_cases hc : s.reconnectAttempts < maxReconnectAttempts
  · left
    simp [scheduleReconnect, hc]
  · right
    simp [scheduleReconnect, hc, terminalToast]

/-- Helper: scheduleReconnect never invokes a registered callback. -/
theorem aux_scheduleReconnect_no_callback (s : WSState) (k : CallbackKind) :
    Effect.callbackInvoked k ∉ (scheduleReconnect s).2 := by
  by_cases hc : s.reconnectAttempts < maxReconnectAttempts
  · simp [scheduleReconnect, hc]
  · simp [scheduleReconnect, hc]

/-- C1: for every attempt number n with 1 ≤ n ≤ 5, a failure event hitting a
state whose counter is n - 1 schedules a reconnect timer with delay
reconnectDelay * 2 ^ (n - 1) and sets the counter to n — for base delay d this
is the sequence d, 2d, 4d, 8d, 16d over attempts 1..5 — and from any state
whose counter has reached the cap no reconnect timer is ever scheduled, so no
6th attempt occurs. -/
theorem c1_reconnect_delay_sequence (s : WSState) (n : Nat)
    (h1 : 1 ≤ n) (h5 : n ≤ 5) (ha : s.reconnectAttempts = n - 1) :
    (scheduleReconnect s).1.reconnectAttempts = n ∧
    (scheduleReconnect s).1.pendingTimers
      = s.pendingTimers ++ [s.reconnectDelay * 2 ^ (n - 1)] ∧
    Effect.scheduledTimer (s.reconnectDelay * 2 ^ (n - 1))
      ∈ (scheduleReconnect s).2 ∧
    (∀ t : WSState, maxReconnectAttempts ≤ t.reconnectAttempts →
      (scheduleReconnect t).1 = t ∧
      ∀ d, Effect.scheduledTimer d ∉ (scheduleReconnect t).2) := by
  have hlt : s.reconnectAttempts < maxReconnectAttempts := by
    simp only [maxReconnectAttempts]
    omega
  have hexp : s.reconnectAttempts + 1 - 1 = n - 1 := by omega
  refine ⟨?_, ?_, ?_, ?_⟩
  · simp only [scheduleReconnect, if_pos hlt]
    omega
  · simp only [scheduleReconnect, if_pos hlt, hexp]
  · simp only [scheduleReconnect, if_pos hlt, hexp]
    simp
  · intro t ht
    have hge : ¬ t.reconnectAttempts < maxReconnectAttempts := by omega
    constructor
    · simp [scheduleReconnect, hge]
    · intro d
      simp [scheduleReconnect, hge]

/-- C1 witness: at the state with counter 2 and attempt number 3, the
hypotheses hold and the counter after the failure event equals 3. -/
theorem c1_reconnect_delay_sequence_witness :
    ((1 : Nat) ≤ 3 ∧ (3 : Nat) ≤ 5 ∧
      ({ newWSState with reconnectAttempts := 2 } : WSState).reconnectAttempts
        = 3 - 1) ∧
    (scheduleReconnect
        { newWSState with reconnectAttempts := 2 }).1.reconnectAttempts = 3 :=
  ⟨⟨by decide, by decide, by decide⟩,
   (c1_reconnect_delay_sequence { newWSState with reconnectAttempts := 2 } 3
      (by decide) (by decide) (by decide)).1⟩

end TradeMachine

namespace TradeMachine

/-- C2 counterexample: in a run where the wallet open fails, the promise
returned by connect() still resolves — the catch swallows the rejection — so
the claim that connect rejects when any open fails is false on the code. -/
theorem c2_connect_rejects_counterexample :
    ({ wallet := false, bots := true, notifications := true } : OpenOutcomes).wallet
      = false ∧
    (connect { wallet := false, bots := true, notifications := true }
        newWSState).2.1 = ConnectResult.resolved ∧
    ConnectResult.resolved ≠ ConnectResult.rejected := by
  refine ⟨rfl, by decide, by decide⟩

/-- C2 (amended): connect() resolves in every path: when all three opens
succeed it resolves with all sockets OPEN and the attempt counter reset, and
when any open fails the returned future still resolves (the error is caught,
never re-thrown) while a reconnection cycle for the whole group is driven — a
reconnect timer is appended, or beyond the cap the terminal toast is shown. -/
theorem c2_connect_resolution (oc : OpenOutcomes) (s : WSState)
    (h : s.isConnecting = false) :
    (connect oc s).2.1 = ConnectResult.resolved ∧
    (oc.wallet = true → oc.bots = true → oc.notifications = true →
      (connect oc s).1.walletSocket = some ReadyState.OPEN ∧
      (connect oc s).1.botsSocket = some ReadyState.OPEN ∧
      (connect oc s).1.notificationsSocket = some ReadyState.OPEN ∧
      (connect oc s).1.reconnectAttempts = 0) ∧
    ((oc.wallet = false ∨ oc.bots = false ∨ oc.notifications = false) →
      (connect oc s).1.pendingTimers.length = s.pendingTimers.length + 1 ∨
      terminalToast ∈ (connect oc s).2.2) := by
  obtain ⟨w, b, nn⟩ := oc
  cases w <;> cases b <;> cases nn <;>
    refine ⟨by simp [connect, h], by simp [connect, h], fun hfail => ?_⟩
  case mk.true.true.true => exact absurd hfail (by simp)
  all_goals by_cases hc : s.reconnectAttempts < maxReconnectAttempts
  all_goals first
    | (left; simp [connect, scheduleReconnect, h, hc]; done)
    | (right; simp [connect, scheduleReconnect, h, hc, terminalToast]; done)

/-- C2 witness: at the fresh state with all three opens succeeding, the
hypothesis holds and connect resolves. -/
theorem c2_connect_resolution_witness :
    newWSState.isConnecting = false ∧
    (connect { wallet := true, bots := true, notifications := true }
        newWSState).2.1 = ConnectResult.resolved :=
  ⟨by decide,
   (c2_connect_resolution { wallet := true, bots := true, notifications := true }
      newWSState (by decide)).1⟩

end TradeMachine

namespace TradeMachine

/-- C3 counterexample: from a state whose counter has already reached the cap
of 5, two subsequent failure events emit the terminal connection-lost toast
twice — once per event — refuting emission exactly once in total. -/
theorem c3_terminal_toast_counterexample :
    ({ newWSState with reconnectAttempts := 5 } : WSState).reconnectAttempts
      = maxReconnectAttempts ∧
    countTerminal
      (runFailureEvents 2 { newWSState with reconnectAttempts := 5 }).2 = 2 := by
  exact ⟨rfl, by decide⟩

/-- C3 (amended): once the counter reaches the cap of 5, reconnection stops
permanently — every subsequent failure event leaves the state unchanged and
never schedules a reconnect timer — but the terminal connection-lost
notification is emitted once per subsequent failure event (k events emit k
toasts), not exactly once in total. -/
theorem c3_terminal_behavior (s : WSState) (k : Nat)
    (h : s.reconnectAttempts = maxReconnectAttempts) :
    (runFailureEvents k s).1 = s ∧
    (∀ d, Effect.scheduledTimer d ∉ (runFailureEvents k s).2) ∧
    countTerminal (runFailureEvents k s).2 = k := by
  have hge : ¬ s.reconnectAttempts < maxReconnectAttempts := by omega
  have hs : scheduleReconnect s =
      (s, [Effect.logged "Max WebSocket reconnection attempts reached",
           terminalToast]) := by
    simp [scheduleReconnect, hge, terminalToast]
  induction k with
  | zero =>
      refine ⟨rfl, ?_, rfl⟩
      intro d
      simp [runFailureEvents]
  | succ k ih =>
      obtain ⟨ih1, ih2, ih3⟩ := ih
      refine ⟨?_, ?_, ?_⟩
      · simpa [runFailureEvents, hs] using ih1
      · intro d
        simp [runFailureEvents, hs, terminalToast]
        exact ih2 d
      · simp [runFailureEvents, hs, countTerminal, terminalToast]
        omega

/-- C3 witness: at the state with the counter at the cap and three failure
events, the hypothesis holds and the state is unchanged. -/
theorem c3_terminal_behavior_witness :
    ({ newWSState with reconnectAttempts := 5 } : WSState).reconnectAttempts
      = maxReconnectAttempts ∧
    (runFailureEvents 3 { newWSState with reconnectAttempts := 5 }).1
      = { newWSState with reconnectAttempts := 5 } :=
  ⟨by decide,
   (c3_terminal_behavior { newWSState with reconnectAttempts := 5 } 3 rfl).1⟩

/-- C4 counterexample: starting from counter 3 with a run in which the wallet
open succeeds (its socket ends OPEN) but the bots open fails, the counter ends
at 4: the successful wallet open did not reset it to zero (were the claim
true, the counter would be 0 after the wallet open and at most 1 after the
single subsequent failure). -/
theorem c4_reset_counterexample :
    (connect { wallet := true, bots := false, notifications := true }
        { newWSState with reconnectAttempts := 3 }).1.walletSocket
      = some ReadyState.OPEN ∧
    (connect { wallet := true, bots := false, notifications := true }
        { newWSState with reconnectAttempts := 3 }).1.reconnectAttempts = 4 ∧
    (connect { wallet := true, bots := false, notifications := true }
        { newWSState with reconnectAttempts := 3 }).1.reconnectAttempts ≠ 0 ∧
    (connect { wallet := true, bots := false, notifications := true }
        { newWSState with reconnectAttempts := 3 }).1.reconnectAttempts ≠ 1 := by
  decide

/-- C4 (amended): the reconnect attempt counter is a single counter shared by
all Channels of the Supervisor, not per Channel: it is reset to zero exactly
by a fully successful connect() (all three opens succeed), and on every
failure event it never decreases and never exceeds the cap of 5; in
particular, after connect() resolves with every open successful the counter
equals 0. -/
theorem c4_shared_counter (oc : OpenOutcomes) (s : WSState)
    (h : s.isConnecting = false) :
    (oc.wallet = true → oc.bots = true → oc.notifications = true →
      (connect oc s).1.reconnectAttempts = 0) ∧
    (∀ t : WSState,
      t.reconnectAttempts ≤ (scheduleReconnect t).1.reconnectAttempts ∧
      (t.reconnectAttempts ≤ maxReconnectAttempts →
        (scheduleReconnect t).1.reconnectAttempts ≤ maxReconnectAttempts)) := by
  constructor
  · intro hw hb hn
    simp [connect, h, hw, hb, hn]
  · intro t
    by_cases hc : t.reconnectAttempts < maxReconnectAttempts
    · constructor
      · simp [scheduleReconnect, hc]
      · intro hb
        simp [scheduleReconnect, hc]
        omega
    · constructor
      · simp [scheduleReconnect, hc]
      · intro hb
        simp [scheduleReconnect, hc]
        omega

/-- C4 witness: at the fresh state with all three opens succeeding, the
hypothesis holds and the counter after connect equals 0. -/
theorem c4_shared_counter_witness :
    newWSState.isConnecting = false ∧
    (connect { wallet := true, bots := true, notifications := true }
        newWSState).1.reconnectAttempts = 0 :=
  ⟨by decide,
   (c4_shared_counter { wallet := true, bots := true, notifications := true }
      newWSState (by decide)).1 rfl rfl rfl⟩

end TradeMachine

namespace TradeMachine

/-- C5: dispatching an envelope whose discriminant is not one of the
recognized values produces exactly the two log entries — the inbound-message
log and the unknown-type log — so no registered callback is invoked and no
toast is raised, for every callback registry; dispatch is a total function,
so no exception is raised, and the envelope is dropped. -/
theorem c5_unknown_type_dropped (cbs : WebSocketCallbacks) (msg : WSMessage)
    (h : msg.type ∉ recognizedTypes) :
    handleMessage cbs msg =
      [Effect.logged "WebSocket message",
       Effect.logged "Unknown WebSocket message type"] ∧
    (∀ k, Effect.callbackInvoked k ∉ handleMessage cbs msg) := by
  simp only [recognizedTypes, List.mem_cons, List.not_mem_nil, or_false,
    not_or] at h
  obtain ⟨h1, h2, h3, h4, h5, h6, h7⟩ := h
  constructor
  · simp [handleMessage, dispatchMessage, h1, h2, h3, h4, h5, h6, h7]
  · intro k
    simp [handleMessage, dispatchMessage, h1, h2, h3, h4, h5, h6, h7]

/-- C5 witness: a concrete envelope with the unrecognized discriminant and a
fully populated registry dispatches to the two log entries alone. -/
theorem c5_unknown_type_dropped_witness :
    ("weird_event" ∉ recognizedTypes) ∧
    handleMessage
      { onBalanceUpdate := true, onTransactionNotification := true,
        onBotStatusUpdate := true, onSystemNotification := true,
        onError := true, onConnectionEstablished := true,
        onDisconnect := true }
      { type := "weird_event", user_id := none,
        data := { transaction := none, message := none, level := none,
                  error := none },
        timestamp := "2024-01-01" } =
      [Effect.logged "WebSocket message",
       Effect.logged "Unknown WebSocket message type"] :=
  ⟨by decide,
   (c5_unknown_type_dropped
      { onBalanceUpdate := true, onTransactionNotification := true,
        onBotStatusUpdate := true, onSystemNotification := true,
        onError := true, onConnectionEstablished := true,
        onDisconnect := true }
      { type := "weird_event", user_id := none,
        data := { transaction := none, message := none, level := none,
                  error := none },
        timestamp := "2024-01-01" }
      (by decide)).1⟩

/-- Helper: the polarity test of the source equals substring containment of
the receive marker in the category name, with a missing name read as the
empty string. -/
theorem aux_isReceiveTx_getD (tx : Transaction) :
    isReceiveTx tx = containsSubstr (tx.transaction_type.getD "") "receive" := by
  cases htx : tx.transaction_type with
  | none =>
      simp only [isReceiveTx, htx, Option.getD_none]
      decide
  | some t =>
      simp [isReceiveTx, htx]

/-- C6: a transaction_notification envelope carrying an embedded transaction
raises exactly one success toast; its polarity is Received exactly when the
category name contains the substring receive (otherwise Sent), and the
displayed amount is the magnitude formatted with thousands separators (the
formatter groups digits in threes, as witnessed on 1234567). -/
theorem c6_transaction_toast (cbs : WebSocketCallbacks) (msg : WSMessage)
    (tx : Transaction) (ht : msg.type = "transaction_notification")
    (htx : msg.data.transaction = some tx) :
    successToasts (handleMessage cbs msg) =
      [(if containsSubstr (tx.transaction_type.getD "") "receive"
          then "Received" else "Sent") ++ " KES " ++ displayAmount tx] ∧
    toLocaleString 1234567 = "1,234,567" := by
  constructor
  · cases hcb : cbs.onTransactionNotification <;>
      simp [handleMessage, dispatchMessage, ht, htx, hcb, successToasts,
        aux_isReceiveTx_getD]
  · decide

/-- C6 witness: a concrete envelope whose category name contains the receive
marker with amount 1234567 raises the single toast Received KES 1,234,567. -/
theorem c6_transaction_toast_witness :
    ({ type := "transaction_notification", user_id := none,
       data := { transaction := some { transaction_type := some "crypto_receive",
                                       amount := some 1234567 },
                 message := none, level := none, error := none },
       timestamp := "2024-01-01" } : WSMessage).type
      = "transaction_notification" ∧
    successToasts
      (handleMessage
        { onBalanceUpdate := true, onTransactionNotification := true,
          onBotStatusUpdate := true, onSystemNotification := true,
          onError := true, onConnectionEstablished := true,
          onDisconnect := true }
        { type := "transaction_notification", user_id := none,
          data := { transaction := some { transaction_type := some "crypto_receive",
                                          amount := some 1234567 },
                    message := none, level := none, error := none },
          timestamp := "2024-01-01" }) = ["Received KES 1,234,567"] :=
  ⟨rfl,
   (c6_transaction_toast
      { onBalanceUpdate := true, onTransactionNotification := true,
        onBotStatusUpdate := true, onSystemNotification := true,
        onError := true, onConnectionEstablished := true,
        onDisconnect := true }
      { type := "transaction_notification", user_id := none,
        data := { transaction := some { transaction_type := some "crypto_receive",
                                        amount := some 1234567 },
                  message := none, level := none, error := none },
        timestamp := "2024-01-01" }
      { transaction_type := some "crypto_receive", amount := some 1234567 }
      rfl rfl).1⟩

/-- C7: sending any payload on a topic whose socket handle is missing or whose
readyState is not OPEN returns the state unchanged with a recorded warning as
its only effect: the message is dropped, nothing is queued or transmitted, and
sendMessage is a total function, so no exception propagates. -/
theorem c7_send_not_open (s : WSState) (payload : String) (t : Topic)
    (h : getSocket s t ≠ some ReadyState.OPEN) :
    sendMessage s payload t = (s, [Effect.warned "WebSocket is not connected"]) := by
  unfold sendMessage
  cases hs : getSocket s t with
  | none => rfl
  | some r =>
      cases r with
      | OPEN => exact absurd hs h
      | CONNECTING => rfl
      | CLOSING => rfl
      | CLOSED => rfl

/-- C7 witness: sending a ping on the wallet topic of a fresh service (wallet
handle missing) drops the message with only a warning. -/
theorem c7_send_not_open_witness :
    getSocket newWSState Topic.wallet ≠ some ReadyState.OPEN ∧
    sendMessage newWSState "ping" Topic.wallet =
      (newWSState, [Effect.warned "WebSocket is not connected"]) :=
  ⟨by decide, c7_send_not_open newWSState "ping" Topic.wallet (by decide)⟩

end TradeMachine

namespace TradeMachine

/-- C8: after two initialize calls in succession — with arbitrary interim
mutation st1 of the first instance — exactly one live instance exists (the
second one, freshly constructed), the second call first disconnected the
first instance, and the displaced instance ends with all three sockets
transitioned out and their transport handles released (nulled). -/
theorem c8_single_instance (g : GlobalState) (b1 a1 u1 b2 a2 u2 : String)
    (cb1 cb2 : WebSocketCallbacks) (st1 : WSState) :
    (initializeWebSocket
        (setInstanceState (initializeWebSocket g b1 a1 u1 cb1).1 st1)
        b2 a2 u2 cb2).1.websocketService
      = some { baseUrl := b2, authToken := a2, userId := u2,
               callbacks := cb2, st := newWSState } ∧
    (initializeWebSocket
        (setInstanceState (initializeWebSocket g b1 a1 u1 cb1).1 st1)
        b2 a2 u2 cb2).2.1
      = some (disconnect st1).1 ∧
    (disconnect st1).1.walletSocket = none ∧
    (disconnect st1).1.botsSocket = none ∧
    (disconnect st1).1.notificationsSocket = none := by
  cases hg : g.websocketService with
  | none =>
      refine ⟨?_, ?_, ?_, ?_, ?_⟩ <;>
        simp [initializeWebSocket, setInstanceState, hg, disconnect]
  | some inst =>
      refine ⟨?_, ?_, ?_, ?_, ?_⟩ <;>
        simp [initializeWebSocket, setInstanceState, hg, disconnect]

/-- C9: if a reconnect timer is pending, disconnect() leaves the pending
timer list untouched (the timer is never cancelled), clears all three socket
handles, and when the pending attempt fires it executes connect against
exactly that post-disconnect state. -/
theorem c9_timer_survives_disconnect (s : WSState) (d : Nat) (rest : List Nat)
    (oc : OpenOutcomes) (h : s.pendingTimers = d :: rest) :
    (disconnect s).1.pendingTimers = d :: rest ∧
    (disconnect s).1.walletSocket = none ∧
    (disconnect s).1.botsSocket = none ∧
    (disconnect s).1.notificationsSocket = none ∧
    fireNextTimer oc (disconnect s).1 =
      some (connect oc { (disconnect s).1 with pendingTimers := rest }) := by
  refine ⟨?_, ?_, ?_, ?_, ?_⟩ <;>
    simp [disconnect, fireNextTimer, h]

/-- C9 witness: disconnect of a state with one pending 1000 ms timer keeps the
timer pending. -/
theorem c9_timer_survives_disconnect_witness :
    ({ newWSState with pendingTimers := [1000] } : WSState).pendingTimers
      = 1000 :: [] ∧
    (disconnect { newWSState with pendingTimers := [1000] }).1.pendingTimers
      = 1000 :: [] :=
  ⟨rfl,
   (c9_timer_survives_disconnect { newWSState with pendingTimers := [1000] }
      1000 [] { wallet := true, bots := true, notifications := true } rfl).1⟩

/-- C10: a close event invokes the registered onDisconnect callback exactly
when the closing topic is wallet and the callback is registered — a close of
the bots or notifications socket never invokes it — while every close,
regardless of topic, drives the shared group reconnect policy on the state
with that socket marked CLOSED. -/
theorem c10_onDisconnect_wallet_only (cbs : WebSocketCallbacks) (t : Topic)
    (s : WSState) :
    (Effect.callbackInvoked CallbackKind.onDisconnect ∈ (handleClose cbs t s).2
      ↔ t = Topic.wallet ∧ cbs.onDisconnect = true) ∧
    (handleClose cbs t s).1 =
      (scheduleReconnect (setSocket s t (some ReadyState.CLOSED))).1 := by
  constructor
  · cases t <;> cases hcb : cbs.onDisconnect <;>
      simp [handleClose, hcb,
        aux_scheduleReconnect_no_callback
          (setSocket s _ (some ReadyState.CLOSED)) CallbackKind.onDisconnect]
  · cases t <;> simp [handleClose]

end TradeMachine
